import Mathlib

set_option autoImplicit false

/-!
Verification of the generation-pipeline orchestrator of the
essentially-sports-reels repository (the Next.js API route in
`src/app/page.tsx`: `POST`, `generateVideoScriptUsingGemini`,
`generateVoiceoverUsingGoogleTTS`, `generateVideoFromRunwayML`,
`fetchVideoAsBuffer`, `uploadToGCPStorage`).

The route is embedded shallowly: each backend (Gemini, Google TTS, the
RunwayML task store, the HTTP fetch of the produced video) is an oracle
recorded in an `Env`; every observable interaction with a backend is
recorded in an event trace; Google Cloud Storage is a name-indexed map
threaded through the run.  The unbounded `do ... while` polling loop is
embedded as a fuel-indexed recursion: `none` means the loop is still
running after `fuel` iterations.
-/

namespace Reels

/-- Byte buffers (Node `Buffer`) are modelled as lists of byte values. -/
abbrev Bytes := List Nat

/-- An object held by Google Cloud Storage: its content type and content.
String contents (the script) are stored through `strBytes`. -/
structure StoredObject where
  contentType : String
  content : Bytes
deriving DecidableEq, Repr

/-- The bucket, as a map from object path to stored object. -/
abbrev Store := String → Option StoredObject

/-- The empty bucket. -/
def emptyStore : Store := fun _ => none

/-- `gcpFile.save` semantics: (over)write the object at `filePath`. -/
def storeSave (st : Store) (filePath : String) (obj : StoredObject) : Store :=
  fun p => if p = filePath then some obj else st p

/-- Encode a string as bytes (used when the uploaded content is text). -/
def strBytes (s : String) : Bytes := s.toList.map Char.toNat

/-- The `generatedFileType` argument of `uploadToGCPStorage`
(source type `'temp' | 'reel'`). -/
inductive Category where
  | temp
  | reel
deriving DecidableEq, Repr

/-- Source: `const directory = generatedFileType === 'temp' ? 'temp' : 'reel';`. -/
def categoryDir : Category → String
  | Category.temp => "temp"
  | Category.reel => "reel"

/-- Source: `const bucketName = 'sehban';`. -/
def bucketName : String := "sehban"

/-- RunwayML task statuses (source checks membership in
`['SUCCEEDED', 'FAILED']`). -/
inductive TaskStatus where
  | PENDING
  | RUNNING
  | SUCCEEDED
  | FAILED
deriving DecidableEq, Repr

/-- Source loop guard `['SUCCEEDED', 'FAILED'].includes(task.status)`. -/
def isTerminal : TaskStatus → Bool
  | TaskStatus.SUCCEEDED => true
  | TaskStatus.FAILED => true
  | _ => false

/-- A RunwayML task as returned by `client.tasks.retrieve`: its status and
its `output` field (`none` models an absent/undefined output array). -/
structure RunwayTask where
  status : TaskStatus
  output : Option (List String)
deriving DecidableEq, Repr

/-- Observable interactions with the backends, in order of occurrence. -/
inductive Event where
  | geminiCall (sport : String)
  | scriptFetch (url : String)
  | ttsCall (text : String)
  | videoSubmit (sport : String) (photo : String)
  | sleep (ms : Nat)
  | statusQuery (taskId : String)
  | outputFetch (url : String)
  | storeUpload (filePath : String)
  | storeDelete (filePath : String)
deriving DecidableEq, Repr

/-- Result of one embedded operation: the bucket afterwards, the events it
emitted, and its value. -/
structure RouteOut (α : Type) where
  store : Store
  trace : List Event
  result : α

/-- Shallow embedding of `uploadToGCPStorage(fileName, fileType, fileContent,
generatedFileType)`: saves the object under `directory/fileName`, makes it
public, and returns
`https://storage.googleapis.com/bucketName/filePath`. -/
def uploadToGCPStorage (st : Store) (fileName : String) (fileType : String)
    (fileContent : Bytes) (generatedFileType : Category) : RouteOut String :=
  let directory := categoryDir generatedFileType
  let filePath := directory ++ "/" ++ fileName
  { store := storeSave st filePath { contentType := fileType, content := fileContent }
    trace := [Event.storeUpload filePath]
    result := "https://storage.googleapis.com/" ++ bucketName ++ "/" ++ filePath }

/-- The external backends of one request, as oracles.  `runwayRetrieve k` is
the task returned by the `k`-th `client.tasks.retrieve` call (0-indexed);
`videoHttpStatus` and `videoHttpChunks` describe the HTTP response obtained
when fetching the produced video. -/
structure Env where
  now : Nat
  geminiText : Option String
  scriptFetchStatus : Nat
  scriptFetchBody : String
  ttsAudioContent : Option Bytes
  runwayTaskId : String
  runwayRetrieve : Nat → RunwayTask
  videoHttpStatus : Nat
  videoHttpChunks : List Bytes

/-- node-fetch `response.ok`: status in the 2xx range. -/
def fetchOk (status : Nat) : Bool :=
  decide (200 ≤ status ∧ status < 300)

/-- Shallow embedding of `generateVideoScriptUsingGemini(sports,
tempScriptName)`: one Gemini call; if `response.text` is absent or empty the
function throws, otherwise it uploads the script as `text/plain` under the
`temp` category and returns the upload URL. -/
def generateVideoScriptUsingGemini (env : Env) (sports : String)
    (tempScriptName : String) (st : Store) : RouteOut (Except String String) :=
  match env.geminiText with
  | none =>
      { store := st, trace := [Event.geminiCall sports]
        result := Except.error "Failed to generate a script. The response is empty." }
  | some script =>
      if script = "" then
        { store := st, trace := [Event.geminiCall sports]
          result := Except.error "Failed to generate a script. The response is empty." }
      else
        let up := uploadToGCPStorage st tempScriptName "text/plain"
          (strBytes script) Category.temp
        { store := up.store, trace := Event.geminiCall sports :: up.trace
          result := Except.ok up.result }

/-- Shallow embedding of `generateVoiceoverUsingGoogleTTS(scriptURL,
outputFileName)`: fetch the script from `scriptURL` (throw on a non-ok
status or an empty body), call the speech backend, throw if the returned
`audioContent` is absent, otherwise upload it as `audio/mpeg` under the
`temp` category and return the upload URL. -/
def generateVoiceoverUsingGoogleTTS (env : Env) (scriptURL : String)
    (outputFileName : String) (st : Store) : RouteOut (Except String String) :=
  if fetchOk env.scriptFetchStatus = false then
    { store := st, trace := [Event.scriptFetch scriptURL]
      result := Except.error
        ("Failed to fetch script. Status: " ++ toString env.scriptFetchStatus) }
  else if env.scriptFetchBody = "" then
    { store := st, trace := [Event.scriptFetch scriptURL]
      result := Except.error "Failed to fetch script. The response is empty." }
  else
    match env.ttsAudioContent with
    | none =>
        { store := st
          trace := [Event.scriptFetch scriptURL, Event.ttsCall env.scriptFetchBody]
          result := Except.error "Audio content is empty." }
    | some audioContent =>
        let up := uploadToGCPStorage st outputFileName "audio/mpeg"
          audioContent Category.temp
        { store := up.store
          trace := Event.scriptFetch scriptURL :: Event.ttsCall env.scriptFetchBody
            :: up.trace
          result := Except.ok up.result }

/-- One sleep-then-retrieve iteration trace of the polling loop, `n` times:
the loop body `await setTimeout(10000); task = await client.tasks.retrieve(taskId)`. -/
def pollTrace (taskId : String) : Nat → List Event
  | 0 => []
  | n + 1 => Event.sleep 10000 :: Event.statusQuery taskId :: pollTrace taskId n

/-- Fuel-indexed embedding of the source's unbounded
`do { sleep; retrieve } while (!terminal)` loop, started at query index `k`.
Returns the emitted events and `some task` when a terminal task was observed
within `fuel` iterations, `none` when the loop is still running. -/
def pollLoopFuel (env : Env) : Nat → Nat → List Event × Option RunwayTask
  | 0, _ => ([], none)
  | fuel + 1, k =>
      let task := env.runwayRetrieve k
      if isTerminal task.status then
        ([Event.sleep 10000, Event.statusQuery env.runwayTaskId], some task)
      else
        let rest := pollLoopFuel env fuel (k + 1)
        (Event.sleep 10000 :: Event.statusQuery env.runwayTaskId :: rest.1, rest.2)

/-- Source: `const videoUrl = task.output ? task.output[0] : null;` followed
by the JavaScript falsy check `if (!videoUrl)`: the output reference is
absent when `output` is undefined, an empty array, or has an empty first
element. -/
def firstOutputRef (task : RunwayTask) : Option String :=
  match task.output with
  | none => none
  | some outs =>
      match outs.head? with
      | none => none
      | some u => if u = "" then none else some u

/-- Shallow embedding of `fetchVideoAsBuffer(videoUrl)`: one `https.get`;
reject when `response.statusCode !== 200`, otherwise resolve with the
concatenation of the streamed chunks. -/
def fetchVideoAsBuffer (env : Env) (videoUrl : String) :
    List Event × Except String Bytes :=
  ([Event.outputFetch videoUrl],
    if env.videoHttpStatus ≠ 200 then
      Except.error ("Failed to fetch video. Status code: " ++ toString env.videoHttpStatus)
    else
      Except.ok env.videoHttpChunks.flatten)

/-- Shallow embedding of `generateVideoFromRunwayML(sports, photo,
tempVideoName)`: submit the image-to-video job, poll until a terminal
status, then on `SUCCEEDED` take the first output reference (throwing when
it is absent), fetch the video bytes and upload them as `video/mp4` under
the `temp` category; on any other terminal status throw
`Video generation failed.`.  The result is `none` while the unbounded loop
has not yet observed a terminal status within `fuel` iterations. -/
def generateVideoFromRunwayML (env : Env) (fuel : Nat) (sports : String)
    (photo : String) (tempVideoName : String) (st : Store) :
    RouteOut (Option (Except String String)) :=
  let submitTrace := [Event.videoSubmit sports photo]
  let poll := pollLoopFuel env fuel 0
  match poll.2 with
  | none => { store := st, trace := submitTrace ++ poll.1, result := none }
  | some task =>
      if task.status = TaskStatus.SUCCEEDED then
        match firstOutputRef task with
        | none =>
            { store := st, trace := submitTrace ++ poll.1
              result := some (Except.error "Task output is undefined or empty.") }
        | some videoUrl =>
            let fetched := fetchVideoAsBuffer env videoUrl
            match fetched.2 with
            | Except.error e =>
                { store := st, trace := submitTrace ++ poll.1 ++ fetched.1
                  result := some (Except.error e) }
            | Except.ok videoBuffer =>
                let up := uploadToGCPStorage st tempVideoName "video/mp4"
                  videoBuffer Category.temp
                { store := up.store
                  trace := submitTrace ++ poll.1 ++ fetched.1 ++ up.trace
                  result := some (Except.ok up.result) }
      else
        { store := st, trace := submitTrace ++ poll.1
          result := some (Except.error "Video generation failed.") }

/-- The parsed JSON body of the request: `const { sports, photo } = body;`. -/
structure RequestBody where
  sports : String
  photo : String
deriving DecidableEq, Repr

/-- The three response shapes the route produces: the 400 validation
response, the 200 success response carrying the three URLs, and the 500
response produced by the catch-all handler. -/
inductive PostResult where
  | badRequest (error : String)
  | ok (scriptURL voiceoverURL videoURL : String)
  | serverError (error : String)
deriving DecidableEq, Repr

/-- Source: `let randomId = Date.now();` (template-interpolated into a
string). -/
def requestRandomId (env : Env) : String := toString env.now

/-- Shallow embedding of the route handler `POST(request)`: validate that
`sports` and `photo` are non-empty (JavaScript falsiness on strings),
derive the three artifact names from one `randomId`, then run the three
stages in sequence, turning the first thrown error into the 500 response.
The result is `none` when the video polling loop never observed a terminal
status within `fuel` iterations. -/
def POST (env : Env) (fuel : Nat) (body : RequestBody) (st : Store) :
    RouteOut (Option PostResult) :=
  if body.sports = "" ∨ body.photo = "" then
    { store := st, trace := [], result := some (PostResult.badRequest "issue in params") }
  else
    let randomId := requestRandomId env
    let tempScriptName := "script-" ++ randomId ++ ".txt"
    let tempVideoName := "video-" ++ randomId ++ ".mp4"
    let tempAudioName := "audio-" ++ randomId ++ ".mp3"
    let s1 := generateVideoScriptUsingGemini env body.sports tempScriptName st
    match s1.result with
    | Except.error e =>
        { store := s1.store, trace := s1.trace, result := some (PostResult.serverError e) }
    | Except.ok scriptURL =>
        let s2 := generateVoiceoverUsingGoogleTTS env scriptURL tempAudioName s1.store
        match s2.result with
        | Except.error e =>
            { store := s2.store, trace := s1.trace ++ s2.trace
              result := some (PostResult.serverError e) }
        | Except.ok voiceoverURL =>
            let s3 := generateVideoFromRunwayML env fuel body.sports body.photo
              tempVideoName s2.store
            match s3.result with
            | none =>
                { store := s3.store, trace := s1.trace ++ s2.trace ++ s3.trace
                  result := none }
            | some (Except.error e) =>
                { store := s3.store, trace := s1.trace ++ s2.trace ++ s3.trace
                  result := some (PostResult.serverError e) }
            | some (Except.ok videoURL) =>
                { store := s3.store, trace := s1.trace ++ s2.trace ++ s3.trace
                  result := some (PostResult.ok scriptURL voiceoverURL videoURL) }

/-- The JSON document `NextResponse.json` renders for each `PostResult`:
on the 500 path `data` is `\x7b\x7d`, so no URL field is present. -/
structure JsonResponse where
  status : Nat
  dataScriptURL : Option String
  dataVoiceoverURL : Option String
  dataVideoURL : Option String
  errorField : Option String
deriving DecidableEq, Repr

/-- Rendering of the route's three response shapes. -/
def renderResponse : PostResult → JsonResponse
  | PostResult.badRequest e =>
      { status := 400, dataScriptURL := none, dataVoiceoverURL := none
        dataVideoURL := none, errorField := some e }
  | PostResult.ok s v u =>
      { status := 200, dataScriptURL := some s, dataVoiceoverURL := some v
        dataVideoURL := some u, errorField := none }
  | PostResult.serverError e =>
      { status := 500, dataScriptURL := none, dataVoiceoverURL := none
        dataVideoURL := none, errorField := some e }

/-- Recogniser for status-query events. -/
def isStatusQueryEv : Event → Bool
  | Event.statusQuery _ => true
  | _ => false

/-- Recogniser for output-fetch events. -/
def isOutputFetchEv : Event → Bool
  | Event.outputFetch _ => true
  | _ => false

/-- Recogniser for sleep events. -/
def isSleepEv : Event → Bool
  | Event.sleep _ => true
  | _ => false

/-- Recogniser for store-delete events. -/
def isStoreDeleteEv : Event → Bool
  | Event.storeDelete _ => true
  | _ => false

/-- Recogniser for video-submission events. -/
def isVideoSubmitEv : Event → Bool
  | Event.videoSubmit _ _ => true
  | _ => false

/-- Number of events in a trace matching `p`. -/
def countEvents (p : Event → Bool) (tr : List Event) : Nat :=
  (tr.filter p).length

/-- A fully successful environment: Gemini returns a script, the script
fetch succeeds, TTS returns audio, the video task runs twice and then
succeeds with one output URL, and the video fetch returns 200. -/
def envOk : Env :=
  { now := 1000
    geminiText := some "Cricket began in southern England"
    scriptFetchStatus := 200
    scriptFetchBody := "Cricket began in southern England"
    ttsAudioContent := some [1, 2, 3]
    runwayTaskId := "42"
    runwayRetrieve := fun k =>
      if k < 2 then { status := TaskStatus.RUNNING, output := none }
      else { status := TaskStatus.SUCCEEDED, output := some ["https://cdn/example.mp4"] }
    videoHttpStatus := 200
    videoHttpChunks := [[7, 7], [8]] }

example :
    (POST envOk 3 { sports := "cricket", photo := "img" } emptyStore).result =
      some (PostResult.ok
        "https://storage.googleapis.com/sehban/temp/script-1000.txt"
        "https://storage.googleapis.com/sehban/temp/audio-1000.mp3"
        "https://storage.googleapis.com/sehban/temp/video-1000.mp4") := by
  decide

example :
    countEvents isStatusQueryEv
      (POST envOk 3 { sports := "cricket", photo := "img" } emptyStore).trace = 3 := by
  decide

theorem countEvents_append (p : Event → Bool) (a b : List Event) :
    countEvents p (a ++ b) = countEvents p a + countEvents p b := by
  simp [countEvents, List.filter_append]

theorem countEvents_pollTrace_query (tid : String) (n : Nat) :
    countEvents isStatusQueryEv (pollTrace tid n) = n := by
  induction n with
  | zero => rfl
  | succ n ih =>
      simp only [countEvents, pollTrace] at ih ⊢
      simp [List.filter_cons, isStatusQueryEv]
      omega

theorem countEvents_pollTrace_sleep (tid : String) (n : Nat) :
    countEvents isSleepEv (pollTrace tid n) = n := by
  induction n with
  | zero => rfl
  | succ n ih =>
      simp only [countEvents, pollTrace] at ih ⊢
      simp [List.filter_cons, isSleepEv]
      omega

theorem countEvents_pollTrace_fetch (tid : String) (n : Nat) :
    countEvents isOutputFetchEv (pollTrace tid n) = 0 := by
  induction n with
  | zero => rfl
  | succ n ih =>
      simp only [countEvents, pollTrace] at ih ⊢
      simpa [List.filter_cons, isOutputFetchEv] using ih

theorem countEvents_pollTrace_delete (tid : String) (n : Nat) :
    countEvents isStoreDeleteEv (pollTrace tid n) = 0 := by
  induction n with
  | zero => rfl
  | succ n ih =>
      simp only [countEvents, pollTrace] at ih ⊢
      simpa [List.filter_cons, isStoreDeleteEv] using ih

/-- When the backend's poll answers are non-terminal for the first `N`
queries after index `k` and terminal at query `k + N`, the loop (with
enough fuel) emits exactly `N + 1` sleep-and-query pairs and returns the
terminal task. -/
theorem pollLoopFuel_terminal (env : Env) (N : Nat) :
    ∀ fuel k, N + 1 ≤ fuel →
    (∀ j, j < N → isTerminal (env.runwayRetrieve (k + j)).status = false) →
    isTerminal (env.runwayRetrieve (k + N)).status = true →
    pollLoopFuel env fuel k =
      (pollTrace env.runwayTaskId (N + 1), some (env.runwayRetrieve (k + N))) := by
  induction N with
  | zero =>
      intro fuel k hfuel hrun hterm
      match fuel, hfuel with
      | fuel + 1, _ =>
        rw [Nat.add_zero] at hterm
        simp [pollLoopFuel, hterm, pollTrace]
  | succ N ih =>
      intro fuel k hfuel hrun hterm
      match fuel, hfuel with
      | fuel + 1, hfuel =>
        have h0 : isTerminal (env.runwayRetrieve k).status = false := by
          have := hrun 0 (Nat.succ_pos N)
          rwa [Nat.add_zero] at this
        have hrun' : ∀ j, j < N → isTerminal (env.runwayRetrieve (k + 1 + j)).status = false := by
          intro j hj
          have := hrun (j + 1) (Nat.succ_lt_succ hj)
          rwa [show k + (j + 1) = k + 1 + j by omega] at this
        have hterm' : isTerminal (env.runwayRetrieve (k + 1 + N)).status = true := by
          rwa [show k + (N + 1) = k + 1 + N by omega] at hterm
        have ihr := ih fuel (k + 1) (Nat.le_of_succ_le_succ hfuel) hrun' hterm'
        rw [show k + (N + 1) = k + 1 + N by omega]
        simp only [pollLoopFuel, h0]
        rw [ihr]
        simp [pollTrace]

theorem countEvents_nil (p : Event → Bool) : countEvents p [] = 0 := rfl

theorem countEvents_cons (p : Event → Bool) (e : Event) (tr : List Event) :
    countEvents p (e :: tr) = (if p e then 1 else 0) + countEvents p tr := by
  simp only [countEvents, List.filter_cons]
  split
  · simp [Nat.add_comm]
  · simp

/-- C1: when the video backend reports `RUNNING` for the first `N` status
queries and a terminal `SUCCEEDED` (carrying an output reference) at query
`N`, the orchestrator issues exactly `N + 1` status queries and exactly one
output fetch; when query `N` instead reports `FAILED`, the orchestrator
fails with the error `Video generation failed.` and issues zero output
fetches (and still exactly `N + 1` status queries). -/
theorem c1_video_polling_counts (env : Env) (N fuel : Nat)
    (sports photo tempVideoName : String) (st : Store)
    (hfuel : N + 1 ≤ fuel)
    (hrun : ∀ j, j < N → (env.runwayRetrieve j).status = TaskStatus.RUNNING) :
    ((env.runwayRetrieve N).status = TaskStatus.SUCCEEDED →
      countEvents isStatusQueryEv
        (generateVideoFromRunwayML env fuel sports photo tempVideoName st).trace = N + 1 ∧
      (firstOutputRef (env.runwayRetrieve N) ≠ none →
        countEvents isOutputFetchEv
          (generateVideoFromRunwayML env fuel sports photo tempVideoName st).trace = 1)) ∧
    ((env.runwayRetrieve N).status = TaskStatus.FAILED →
      (generateVideoFromRunwayML env fuel sports photo tempVideoName st).result =
        some (Except.error "Video generation failed.") ∧
      countEvents isStatusQueryEv
        (generateVideoFromRunwayML env fuel sports photo tempVideoName st).trace = N + 1 ∧
      countEvents isOutputFetchEv
        (generateVideoFromRunwayML env fuel sports photo tempVideoName st).trace = 0) := by
  have mkpoll : isTerminal (env.runwayRetrieve N).status = true →
      pollLoopFuel env fuel 0 =
        (pollTrace env.runwayTaskId (N + 1), some (env.runwayRetrieve N)) := by
    intro hterm
    have h := pollLoopFuel_terminal env N fuel 0 hfuel
      (fun j hj => by rw [Nat.zero_add, hrun j hj]; rfl)
      (by rwa [Nat.zero_add])
    rwa [Nat.zero_add] at h
  constructor
  · intro hs
    have hpoll := mkpoll (by rw [hs]; rfl)
    cases hout : firstOutputRef (env.runwayRetrieve N) with
    | none =>
        refine ⟨?_, fun h => absurd rfl h⟩
        simp only [generateVideoFromRunwayML, hpoll, hs, hout]
        simp [countEvents_append, countEvents_cons, countEvents_nil,
          countEvents_pollTrace_query, isStatusQueryEv]
    | some u =>
        constructor
        · by_cases hv : env.videoHttpStatus = 200 <;>
          · simp only [generateVideoFromRunwayML, hpoll, hs, hout, fetchVideoAsBuffer]
            simp [hv, countEvents_append, countEvents_cons, countEvents_nil,
              countEvents_pollTrace_query, isStatusQueryEv, uploadToGCPStorage]
        · intro _
          by_cases hv : env.videoHttpStatus = 200 <;>
          · simp only [generateVideoFromRunwayML, hpoll, hs, hout, fetchVideoAsBuffer]
            simp [hv, countEvents_append, countEvents_cons, countEvents_nil,
              countEvents_pollTrace_fetch, isOutputFetchEv, uploadToGCPStorage]
  · intro hf
    have hpoll := mkpoll (by rw [hf]; rfl)
    have hns : ¬ (env.runwayRetrieve N).status = TaskStatus.SUCCEEDED := by
      rw [hf]; intro h; exact TaskStatus.noConfusion h
    refine ⟨?_, ?_, ?_⟩ <;>
      · simp only [generateVideoFromRunwayML, hpoll, hns]
        simp [countEvents_append, countEvents_cons, countEvents_nil,
          countEvents_pollTrace_query, countEvents_pollTrace_fetch,
          isStatusQueryEv, isOutputFetchEv]

/-- An environment whose video backend reports `FAILED` at the first status
query. -/
def envFail : Env :=
  { envOk with runwayRetrieve := fun _ => { status := TaskStatus.FAILED, output := none } }

/-- Witness for C1: with the backend of `envOk` (two `RUNNING` answers, then
`SUCCEEDED` with an output URL) the orchestrator issues 3 status queries and
1 output fetch; with the backend of `envFail` (immediate `FAILED`) it fails
and issues 1 status query and 0 output fetches. -/
theorem c1_video_polling_counts_witness :
    (countEvents isStatusQueryEv
        (generateVideoFromRunwayML envOk 3 "cricket" "img" "video-1000.mp4" emptyStore).trace = 3 ∧
      countEvents isOutputFetchEv
        (generateVideoFromRunwayML envOk 3 "cricket" "img" "video-1000.mp4" emptyStore).trace = 1) ∧
    ((generateVideoFromRunwayML envFail 1 "cricket" "img" "video-1000.mp4" emptyStore).result =
        some (Except.error "Video generation failed.") ∧
      countEvents isStatusQueryEv
        (generateVideoFromRunwayML envFail 1 "cricket" "img" "video-1000.mp4" emptyStore).trace = 1 ∧
      countEvents isOutputFetchEv
        (generateVideoFromRunwayML envFail 1 "cricket" "img" "video-1000.mp4" emptyStore).trace = 0) := by
  constructor
  · have h := (c1_video_polling_counts envOk 2 3 "cricket" "img" "video-1000.mp4" emptyStore
      (by decide) (by decide)).1 (by decide)
    exact ⟨h.1, h.2 (by decide)⟩
  · exact (c1_video_polling_counts envFail 0 1 "cricket" "img" "video-1000.mp4" emptyStore
      (by decide) (by decide)).2 (by decide)

/-- The public URL the store constructs for an object: determined by the
bucket name, the category directory and the file name alone. -/
def publicUrlFor (cat : Category) (fileName : String) : String :=
  "https://storage.googleapis.com/" ++ bucketName ++ "/" ++ (categoryDir cat ++ "/" ++ fileName)

theorem uploadToGCPStorage_result (st : Store) (n t : String) (c : Bytes) (cat : Category) :
    (uploadToGCPStorage st n t c cat).result = publicUrlFor cat n := rfl

theorem data_append (a b : String) : (a ++ b).data = a.data ++ b.data := rfl

theorem publicUrlFor_ne_empty (cat : Category) (n : String) : publicUrlFor cat n ≠ "" := by
  intro h
  have h2 : (publicUrlFor cat n).data = [] := by rw [h]
  rw [publicUrlFor, data_append, data_append, data_append] at h2
  rcases List.append_eq_nil.mp h2 with ⟨h3, _⟩
  rcases List.append_eq_nil.mp h3 with ⟨h4, _⟩
  rcases List.append_eq_nil.mp h4 with ⟨h5, _⟩
  exact absurd h5 (by decide)

/-- A successful script stage returns exactly the upload URL of the script
object, emits the Gemini call followed by the script upload, and leaves the
script object present in the bucket. -/
theorem gemini_ok_spec (env : Env) (sports n : String) (st : Store) (r : String)
    (h : (generateVideoScriptUsingGemini env sports n st).result = Except.ok r) :
    r = publicUrlFor Category.temp n ∧
    (generateVideoScriptUsingGemini env sports n st).trace =
      [Event.geminiCall sports, Event.storeUpload (categoryDir Category.temp ++ "/" ++ n)] ∧
    (generateVideoScriptUsingGemini env sports n st).store
        (categoryDir Category.temp ++ "/" ++ n) ≠ none := by
  cases hg : env.geminiText with
  | none => simp [generateVideoScriptUsingGemini, hg] at h
  | some script =>
      by_cases hsc : script = ""
      · simp [generateVideoScriptUsingGemini, hg, hsc] at h
      · simp only [generateVideoScriptUsingGemini, hg, hsc, if_neg] at h ⊢
        refine ⟨?_, ?_, ?_⟩
        · simpa [uploadToGCPStorage, publicUrlFor] using h.symm
        · simp [hsc, uploadToGCPStorage]
        · simp [hsc, uploadToGCPStorage, storeSave]

/-- A successful voiceover stage returns exactly the upload URL of the audio
object. -/
theorem tts_ok_value (env : Env) (scriptURL n : String) (st : Store) (r : String)
    (h : (generateVoiceoverUsingGoogleTTS env scriptURL n st).result = Except.ok r) :
    r = publicUrlFor Category.temp n := by
  by_cases hfo : fetchOk env.scriptFetchStatus = false
  · simp [generateVoiceoverUsingGoogleTTS, hfo] at h
  · by_cases hb : env.scriptFetchBody = ""
    · simp [generateVoiceoverUsingGoogleTTS, hfo, hb] at h
    · cases ha : env.ttsAudioContent with
      | none => simp [generateVoiceoverUsingGoogleTTS, hfo, hb, ha] at h
      | some audioContent =>
          simp [generateVoiceoverUsingGoogleTTS, hfo, hb, ha, uploadToGCPStorage,
            publicUrlFor] at h
          exact h.symm

/-- A successful video stage returns exactly the upload URL of the video
object. -/
theorem runway_ok_value (env : Env) (fuel : Nat) (sports photo n : String) (st : Store)
    (r : String)
    (h : (generateVideoFromRunwayML env fuel sports photo n st).result =
      some (Except.ok r)) :
    r = publicUrlFor Category.temp n := by
  cases hp : (pollLoopFuel env fuel 0).2 with
  | none => simp [generateVideoFromRunwayML, hp] at h
  | some task =>
      by_cases hs : task.status = TaskStatus.SUCCEEDED
      · cases hout : firstOutputRef task with
        | none => simp [generateVideoFromRunwayML, hp, hs, hout] at h
        | some u =>
            by_cases hv : env.videoHttpStatus = 200
            · simp [generateVideoFromRunwayML, hp, hs, hout, fetchVideoAsBuffer, hv,
                uploadToGCPStorage, publicUrlFor] at h
              exact h.symm
            · simp [generateVideoFromRunwayML, hp, hs, hout, fetchVideoAsBuffer, hv] at h
      · simp [generateVideoFromRunwayML, hp, hs] at h

/-- C3: when `sports` or `photo` is empty the route answers the 400
validation response `issue in params` and its trace is empty: no backend is
called and nothing is uploaded. -/
theorem c3_validation_fails_fast (env : Env) (fuel : Nat) (body : RequestBody)
    (st : Store) (h : body.sports = "" ∨ body.photo = "") :
    (POST env fuel body st).result = some (PostResult.badRequest "issue in params") ∧
    (POST env fuel body st).trace = [] := by
  constructor <;> simp only [POST, if_pos h]

/-- Witness for C3: an empty `sports` with a non-empty `photo` yields the
400 response and an empty trace. -/
theorem c3_validation_fails_fast_witness :
    (("" : String) = "" ∨ ("img" : String) = "") ∧
    (POST envOk 3 { sports := "", photo := "img" } emptyStore).result =
      some (PostResult.badRequest "issue in params") ∧
    (POST envOk 3 { sports := "", photo := "img" } emptyStore).trace = [] :=
  ⟨Or.inl rfl, c3_validation_fails_fast envOk 3 { sports := "", photo := "img" }
    emptyStore (Or.inl rfl)⟩

/-- C8: the URL returned by the store upload is `publicUrlFor`, a function
of the category and file name only (the bucket name being fixed), hence
independent of the uploaded content, its MIME type and the previous bucket
state; re-uploading under the same name is an overwrite that succeeds and
returns the identical URL. -/
theorem c8_upload_url_deterministic (st st' : Store) (name mime mime' : String)
    (c c' : Bytes) (cat : Category) :
    (uploadToGCPStorage st name mime c cat).result = publicUrlFor cat name ∧
    (uploadToGCPStorage st name mime c cat).result =
      (uploadToGCPStorage st' name mime' c' cat).result ∧
    (uploadToGCPStorage (uploadToGCPStorage st name mime c cat).store
        name mime' c' cat).store (categoryDir cat ++ "/" ++ name) =
      some { contentType := mime', content := c' } := by
  refine ⟨rfl, rfl, ?_⟩
  simp [uploadToGCPStorage, storeSave]

/-- C2: for non-empty `sports` and `photo`, a successful run returns three
URLs that are exactly the public store URLs of `script-{id}.txt`,
`audio-{id}.mp3` and `video-{id}.mp4` in the `temp` namespace, all seeded by
the same per-request id (the request's `Date.now()` value); in particular
all three URLs are non-empty and embed that id in their path. -/
theorem c2_success_three_urls (env : Env) (fuel : Nat) (body : RequestBody) (st : Store)
    (s v u : String) (hs : body.sports ≠ "") (hp : body.photo ≠ "")
    (h : (POST env fuel body st).result = some (PostResult.ok s v u)) :
    s = publicUrlFor Category.temp ("script-" ++ requestRandomId env ++ ".txt") ∧
    v = publicUrlFor Category.temp ("audio-" ++ requestRandomId env ++ ".mp3") ∧
    u = publicUrlFor Category.temp ("video-" ++ requestRandomId env ++ ".mp4") ∧
    s ≠ "" ∧ v ≠ "" ∧ u ≠ "" := by
  have hcond : ¬(body.sports = "" ∨ body.photo = "") := by
    rintro (a | b)
    · exact hs a
    · exact hp b
  simp only [POST, if_neg hcond] at h
  split at h
  next e h1 => simp at h
  next scriptURL h1 =>
    split at h
    next e h2 => simp at h
    next voiceoverURL h2 =>
      split at h
      next h3 => simp at h
      next e h3 => simp at h
      next videoURL h3 =>
        simp only [Option.some.injEq, PostResult.ok.injEq] at h
        obtain ⟨e1, e2, e3⟩ := h
        subst e1; subst e2; subst e3
        have g1 := (gemini_ok_spec env body.sports
          ("script-" ++ requestRandomId env ++ ".txt") st scriptURL h1).1
        have g2 := tts_ok_value env scriptURL
          ("audio-" ++ requestRandomId env ++ ".mp3") _ voiceoverURL h2
        have g3 := runway_ok_value env fuel body.sports body.photo
          ("video-" ++ requestRandomId env ++ ".mp4") _ videoURL h3
        refine ⟨g1, g2, g3, ?_, ?_, ?_⟩
        · rw [g1]; exact publicUrlFor_ne_empty _ _
        · rw [g2]; exact publicUrlFor_ne_empty _ _
        · rw [g3]; exact publicUrlFor_ne_empty _ _

/-- Witness for C2: in the fully successful environment `envOk` (request id
1000), the three returned URLs are the `temp` store URLs seeded by id 1000
and are non-empty. -/
theorem c2_success_three_urls_witness :
    "https://storage.googleapis.com/sehban/temp/script-1000.txt" =
      publicUrlFor Category.temp ("script-" ++ requestRandomId envOk ++ ".txt") ∧
    "https://storage.googleapis.com/sehban/temp/audio-1000.mp3" =
      publicUrlFor Category.temp ("audio-" ++ requestRandomId envOk ++ ".mp3") ∧
    "https://storage.googleapis.com/sehban/temp/video-1000.mp4" =
      publicUrlFor Category.temp ("video-" ++ requestRandomId envOk ++ ".mp4") ∧
    ("https://storage.googleapis.com/sehban/temp/script-1000.txt" : String) ≠ "" ∧
    ("https://storage.googleapis.com/sehban/temp/audio-1000.mp3" : String) ≠ "" ∧
    ("https://storage.googleapis.com/sehban/temp/video-1000.mp4" : String) ≠ "" :=
  c2_success_three_urls envOk 3 { sports := "cricket", photo := "img" } emptyStore
    "https://storage.googleapis.com/sehban/temp/script-1000.txt"
    "https://storage.googleapis.com/sehban/temp/audio-1000.mp3"
    "https://storage.googleapis.com/sehban/temp/video-1000.mp4"
    (by decide) (by decide) (by decide)

/-- When the backend never reports a terminal status, the polling loop is
still running after any number of iterations, having emitted one
sleep-and-query pair per iteration. -/
theorem pollLoopFuel_nonterminal (env : Env)
    (hnt : ∀ k, isTerminal (env.runwayRetrieve k).status = false) :
    ∀ fuel k, pollLoopFuel env fuel k = (pollTrace env.runwayTaskId fuel, none) := by
  intro fuel
  induction fuel with
  | zero => intro k; rfl
  | succ fuel ih =>
      intro k
      simp only [pollLoopFuel, hnt k]
      rw [ih (k + 1)]
      simp [pollTrace]

/-- C4 (the code violates the claim): with a video backend that never
reports a terminal status, the orchestrator never produces any outcome —
after any number `fuel` of loop iterations it has issued `fuel` status
queries and is still polling.  No `Timeout` failure exists anywhere in the
route: the do-while loop of `generateVideoFromRunwayML` has no iteration
cap, deadline or timeout. -/
theorem c4_nonterminal_polls_forever (env : Env)
    (hnt : ∀ k, isTerminal (env.runwayRetrieve k).status = false)
    (fuel : Nat) (sports photo tempVideoName : String) (st : Store) :
    (generateVideoFromRunwayML env fuel sports photo tempVideoName st).result = none ∧
    countEvents isStatusQueryEv
      (generateVideoFromRunwayML env fuel sports photo tempVideoName st).trace = fuel := by
  have hpoll := pollLoopFuel_nonterminal env hnt fuel 0
  constructor
  · simp [generateVideoFromRunwayML, hpoll]
  · simp [generateVideoFromRunwayML, hpoll, countEvents_append, countEvents_cons,
      countEvents_nil, countEvents_pollTrace_query, isStatusQueryEv]

/-- A video backend that always answers `RUNNING`. -/
def envRunsForever : Env :=
  { envOk with runwayRetrieve := fun _ => { status := TaskStatus.RUNNING, output := none } }

/-- Witness for C4: against the always-`RUNNING` backend, after 7 loop
iterations the orchestrator has issued 7 status queries and produced no
outcome. -/
theorem c4_nonterminal_polls_forever_witness :
    (generateVideoFromRunwayML envRunsForever 7 "cricket" "img" "video-1000.mp4"
      emptyStore).result = none ∧
    countEvents isStatusQueryEv
      (generateVideoFromRunwayML envRunsForever 7 "cricket" "img" "video-1000.mp4"
        emptyStore).trace = 7 :=
  c4_nonterminal_polls_forever envRunsForever (fun _ => rfl) 7 "cricket" "img"
    "video-1000.mp4" emptyStore

theorem pollLoopFuel_no_delete (env : Env) : ∀ fuel k,
    countEvents isStoreDeleteEv (pollLoopFuel env fuel k).1 = 0 := by
  intro fuel
  induction fuel with
  | zero => intro k; rfl
  | succ fuel ih =>
      intro k
      simp only [pollLoopFuel]
      by_cases ht : isTerminal (env.runwayRetrieve k).status <;>
        simp [ht, countEvents_cons, countEvents_nil, isStoreDeleteEv, ih]

theorem gemini_no_delete (env : Env) (sports n : String) (st : Store) :
    countEvents isStoreDeleteEv (generateVideoScriptUsingGemini env sports n st).trace = 0 := by
  cases hg : env.geminiText with
  | none =>
      simp [generateVideoScriptUsingGemini, hg, countEvents_cons, countEvents_nil,
        isStoreDeleteEv]
  | some script =>
      by_cases hsc : script = "" <;>
        simp [generateVideoScriptUsingGemini, hg, hsc, uploadToGCPStorage,
          countEvents_cons, countEvents_nil, isStoreDeleteEv]

theorem tts_no_delete (env : Env) (scriptURL n : String) (st : Store) :
    countEvents isStoreDeleteEv (generateVoiceoverUsingGoogleTTS env scriptURL n st).trace = 0 := by
  by_cases hfo : fetchOk env.scriptFetchStatus = false
  · simp [generateVoiceoverUsingGoogleTTS, hfo, countEvents_cons, countEvents_nil,
      isStoreDeleteEv]
  · by_cases hb : env.scriptFetchBody = ""
    · simp [generateVoiceoverUsingGoogleTTS, hfo, hb, countEvents_cons, countEvents_nil,
        isStoreDeleteEv]
    · cases ha : env.ttsAudioContent with
      | none =>
          simp [generateVoiceoverUsingGoogleTTS, hfo, hb, ha, countEvents_cons,
            countEvents_nil, isStoreDeleteEv]
      | some audioContent =>
          simp [generateVoiceoverUsingGoogleTTS, hfo, hb, ha, uploadToGCPStorage,
            countEvents_cons, countEvents_nil, isStoreDeleteEv]

theorem runway_no_delete (env : Env) (fuel : Nat) (sports photo n : String) (st : Store) :
    countEvents isStoreDeleteEv
      (generateVideoFromRunwayML env fuel sports photo n st).trace = 0 := by
  have hq := pollLoopFuel_no_delete env fuel 0
  cases hp : (pollLoopFuel env fuel 0).2 with
  | none =>
      simp [generateVideoFromRunwayML, hp, countEvents_append, countEvents_cons,
        countEvents_nil, isStoreDeleteEv, hq]
  | some task =>
      by_cases hs : task.status = TaskStatus.SUCCEEDED
      · cases hout : firstOutputRef task with
        | none =>
            simp [generateVideoFromRunwayML, hp, hs, hout, countEvents_append,
              countEvents_cons, countEvents_nil, isStoreDeleteEv, hq]
        | some u =>
            by_cases hv : env.videoHttpStatus = 200 <;>
              simp [generateVideoFromRunwayML, hp, hs, hout, fetchVideoAsBuffer, hv,
                uploadToGCPStorage, countEvents_append, countEvents_cons,
                countEvents_nil, isStoreDeleteEv, hq]
      · simp [generateVideoFromRunwayML, hp, hs, countEvents_append, countEvents_cons,
          countEvents_nil, isStoreDeleteEv, hq]

theorem POST_no_delete (env : Env) (fuel : Nat) (body : RequestBody) (st : Store) :
    countEvents isStoreDeleteEv (POST env fuel body st).trace = 0 := by
  by_cases hcond : body.sports = "" ∨ body.photo = ""
  · simp [POST, hcond, countEvents_nil]
  · simp only [POST, if_neg hcond]
    split
    · simp [gemini_no_delete]
    · split
      · simp [countEvents_append, gemini_no_delete, tts_no_delete]
      · split <;>
          simp [countEvents_append, gemini_no_delete, tts_no_delete, runway_no_delete]

/-- C6: when a stage fails, the route's JSON answer is the 500 response
whose `data` object carries none of the three URLs and whose error field
holds the failing stage's message; the run is never reported as success;
and no run of the route ever deletes a stored object (no compensating
cleanup of already-uploaded artifacts). -/
theorem c6_failure_is_total (env : Env) (fuel : Nat) (body : RequestBody) (st : Store)
    (e : String)
    (h : (POST env fuel body st).result = some (PostResult.serverError e)) :
    ((POST env fuel body st).result.map renderResponse) =
      some { status := 500, dataScriptURL := none, dataVoiceoverURL := none,
             dataVideoURL := none, errorField := some e } ∧
    (∀ s v u, (POST env fuel body st).result ≠ some (PostResult.ok s v u)) ∧
    countEvents isStoreDeleteEv (POST env fuel body st).trace = 0 := by
  refine ⟨?_, ?_, POST_no_delete env fuel body st⟩
  · rw [h]; rfl
  · intro s v u hc
    rw [h] at hc
    simp at hc

/-- An environment whose Gemini backend returns no script, so the first
stage fails. -/
def envGeminiDown : Env := { envOk with geminiText := none }

/-- Witness for C6: with the script backend failing, the route answers the
500 response with no URLs, is not a success, and deletes nothing. -/
theorem c6_failure_is_total_witness :
    ((POST envGeminiDown 3 { sports := "cricket", photo := "img" } emptyStore).result.map
        renderResponse) =
      some { status := 500, dataScriptURL := none, dataVoiceoverURL := none,
             dataVideoURL := none,
             errorField := some "Failed to generate a script. The response is empty." } ∧
    (∀ s v u, (POST envGeminiDown 3 { sports := "cricket", photo := "img" }
        emptyStore).result ≠ some (PostResult.ok s v u)) ∧
    countEvents isStoreDeleteEv
      (POST envGeminiDown 3 { sports := "cricket", photo := "img" } emptyStore).trace = 0 :=
  c6_failure_is_total envGeminiDown 3 { sports := "cricket", photo := "img" } emptyStore
    "Failed to generate a script. The response is empty." (by decide)

/-- Every run of the voiceover stage begins by fetching `scriptURL`: its
first emitted event is the HTTP fetch of exactly the URL it was invoked
with. -/
theorem tts_trace_head (env : Env) (scriptURL n : String) (st : Store) :
    ∃ r, (generateVoiceoverUsingGoogleTTS env scriptURL n st).trace =
      Event.scriptFetch scriptURL :: r := by
  by_cases hfo : fetchOk env.scriptFetchStatus = false
  · exact ⟨[], by simp [generateVoiceoverUsingGoogleTTS, hfo]⟩
  · by_cases hb : env.scriptFetchBody = ""
    · exact ⟨[], by simp [generateVoiceoverUsingGoogleTTS, hfo, hb]⟩
    · cases ha : env.ttsAudioContent with
      | none =>
          exact ⟨[Event.ttsCall env.scriptFetchBody],
            by simp [generateVoiceoverUsingGoogleTTS, hfo, hb, ha]⟩
      | some audioContent =>
          exact ⟨Event.ttsCall env.scriptFetchBody ::
              (uploadToGCPStorage st n "audio/mpeg" audioContent Category.temp).trace,
            by simp [generateVoiceoverUsingGoogleTTS, hfo, hb, ha]⟩

/-- C5: whenever the voiceover generator is invoked (validation passed and
the script stage succeeded with URL `scriptURL`), that URL is exactly the
public URL of the uploaded script object, the route's trace begins with the
Gemini call, then the script upload, then the voiceover's fetch of
`scriptURL` — so the upload strictly precedes the voiceover invocation —
and the script object is present in the bucket when the voiceover stage
starts. -/
theorem c5_upload_precedes_voiceover (env : Env) (fuel : Nat) (body : RequestBody)
    (st : Store) (scriptURL : String)
    (hcond : ¬(body.sports = "" ∨ body.photo = ""))
    (h1 : (generateVideoScriptUsingGemini env body.sports
      ("script-" ++ requestRandomId env ++ ".txt") st).result = Except.ok scriptURL) :
    scriptURL = publicUrlFor Category.temp ("script-" ++ requestRandomId env ++ ".txt") ∧
    (∃ rest, (POST env fuel body st).trace =
      Event.geminiCall body.sports ::
      Event.storeUpload (categoryDir Category.temp ++ "/" ++
        ("script-" ++ requestRandomId env ++ ".txt")) ::
      Event.scriptFetch scriptURL :: rest) ∧
    (generateVideoScriptUsingGemini env body.sports
        ("script-" ++ requestRandomId env ++ ".txt") st).store
      (categoryDir Category.temp ++ "/" ++ ("script-" ++ requestRandomId env ++ ".txt"))
      ≠ none := by
  obtain ⟨gv, gtr, gst⟩ := gemini_ok_spec env body.sports
    ("script-" ++ requestRandomId env ++ ".txt") st scriptURL h1
  refine ⟨gv, ?_, gst⟩
  obtain ⟨r2, htr2⟩ := tts_trace_head env scriptURL
    ("audio-" ++ requestRandomId env ++ ".mp3")
    (generateVideoScriptUsingGemini env body.sports
      ("script-" ++ requestRandomId env ++ ".txt") st).store
  simp only [POST, if_neg hcond]
  split
  next e h1' => rw [h1'] at h1; exact absurd h1 (by simp)
  next scriptURL' h1' =>
    rw [h1'] at h1
    injection h1 with hh
    subst hh
    split
    next e h2 =>
      exact ⟨r2, by simp [gtr, htr2]⟩
    next voiceoverURL h2 =>
      split
      next h3 =>
        exact ⟨r2 ++ (generateVideoFromRunwayML env fuel body.sports body.photo
          ("video-" ++ requestRandomId env ++ ".mp4")
          (generateVoiceoverUsingGoogleTTS env scriptURL'
            ("audio-" ++ requestRandomId env ++ ".mp3")
            (generateVideoScriptUsingGemini env body.sports
              ("script-" ++ requestRandomId env ++ ".txt") st).store).store).trace,
          by simp [gtr, htr2]⟩
      next e h3 =>
        exact ⟨r2 ++ (generateVideoFromRunwayML env fuel body.sports body.photo
          ("video-" ++ requestRandomId env ++ ".mp4")
          (generateVoiceoverUsingGoogleTTS env scriptURL'
            ("audio-" ++ requestRandomId env ++ ".mp3")
            (generateVideoScriptUsingGemini env body.sports
              ("script-" ++ requestRandomId env ++ ".txt") st).store).store).trace,
          by simp [gtr, htr2]⟩
      next videoURL h3 =>
        exact ⟨r2 ++ (generateVideoFromRunwayML env fuel body.sports body.photo
          ("video-" ++ requestRandomId env ++ ".mp4")
          (generateVoiceoverUsingGoogleTTS env scriptURL'
            ("audio-" ++ requestRandomId env ++ ".mp3")
            (generateVideoScriptUsingGemini env body.sports
              ("script-" ++ requestRandomId env ++ ".txt") st).store).store).trace,
          by simp [gtr, htr2]⟩

/-- Witness for C5: in `envOk`, the script stage succeeds with the script's
public URL, the trace opens with the Gemini call, the script upload and then
the voiceover's fetch of exactly that URL, and the script object is in the
bucket at that point. -/
theorem c5_upload_precedes_voiceover_witness :
    "https://storage.googleapis.com/sehban/temp/script-1000.txt" =
      publicUrlFor Category.temp ("script-" ++ requestRandomId envOk ++ ".txt") ∧
    (∃ rest, (POST envOk 3 { sports := "cricket", photo := "img" } emptyStore).trace =
      Event.geminiCall "cricket" ::
      Event.storeUpload (categoryDir Category.temp ++ "/" ++
        ("script-" ++ requestRandomId envOk ++ ".txt")) ::
      Event.scriptFetch "https://storage.googleapis.com/sehban/temp/script-1000.txt" ::
        rest) ∧
    (generateVideoScriptUsingGemini envOk "cricket"
        ("script-" ++ requestRandomId envOk ++ ".txt") emptyStore).store
      (categoryDir Category.temp ++ "/" ++ ("script-" ++ requestRandomId envOk ++ ".txt"))
      ≠ none :=
  c5_upload_precedes_voiceover envOk 3 { sports := "cricket", photo := "img" } emptyStore
    "https://storage.googleapis.com/sehban/temp/script-1000.txt"
    (by decide) (by rfl)

/-- Checks that every status query in a trace is immediately preceded by a
full 10000 ms sleep event. -/
def queriesSleepGuarded : List Event → Bool
  | [] => true
  | Event.sleep ms :: Event.statusQuery _ :: rest =>
      decide (ms = 10000) && queriesSleepGuarded rest
  | Event.statusQuery _ :: _ => false
  | _ :: rest => queriesSleepGuarded rest

theorem queriesSleepGuarded_pollTrace_append (tid : String) :
    ∀ (n : Nat) (tail : List Event),
      queriesSleepGuarded (pollTrace tid n ++ tail) = queriesSleepGuarded tail := by
  intro n
  induction n with
  | zero => intro tail; rfl
  | succ n ih => intro tail; simp [pollTrace, queriesSleepGuarded, ih]

/-- The polling loop's trace is always a sequence of sleep-and-query pairs,
non-empty as soon as the loop body runs at least once. -/
theorem pollLoopFuel_trace_shape (env : Env) : ∀ fuel k, ∃ m,
    (pollLoopFuel env fuel k).1 = pollTrace env.runwayTaskId m ∧ (1 ≤ fuel → 1 ≤ m) := by
  intro fuel
  induction fuel with
  | zero => intro k; exact ⟨0, rfl, by omega⟩
  | succ fuel ih =>
      intro k
      by_cases ht : isTerminal (env.runwayRetrieve k).status
      · exact ⟨1, by simp [pollLoopFuel, ht, pollTrace], fun _ => le_refl 1⟩
      · obtain ⟨m, hm, _⟩ := ih (k + 1)
        refine ⟨m + 1, ?_, fun _ => by omega⟩
        simp [pollLoopFuel, ht, pollTrace, hm]

/-- Every trace of the video stage is the job submission, then the polling
pairs, then a tail (possible output fetch and upload) that contains no
status query and is sleep-guarded. -/
theorem runway_trace_shape (env : Env) (fuel : Nat) (sports photo n : String)
    (st : Store) :
    ∃ m tail, (generateVideoFromRunwayML env fuel sports photo n st).trace =
      Event.videoSubmit sports photo :: (pollTrace env.runwayTaskId m ++ tail) ∧
      (1 ≤ fuel → 1 ≤ m) ∧
      queriesSleepGuarded tail = true ∧
      countEvents isStatusQueryEv tail = 0 := by
  obtain ⟨m, hm, hm1⟩ := pollLoopFuel_trace_shape env fuel 0
  cases hp : (pollLoopFuel env fuel 0).2 with
  | none =>
      exact ⟨m, [], by simp [generateVideoFromRunwayML, hp, hm], hm1, rfl, rfl⟩
  | some task =>
      by_cases hs : task.status = TaskStatus.SUCCEEDED
      · cases hout : firstOutputRef task with
        | none =>
            exact ⟨m, [], by simp [generateVideoFromRunwayML, hp, hs, hout, hm],
              hm1, rfl, rfl⟩
        | some u =>
            by_cases hv : env.videoHttpStatus = 200
            · refine ⟨m, [Event.outputFetch u,
                Event.storeUpload (categoryDir Category.temp ++ "/" ++ n)], ?_, hm1, rfl, rfl⟩
              simp [generateVideoFromRunwayML, hp, hs, hout, fetchVideoAsBuffer, hv,
                uploadToGCPStorage, hm]
            · refine ⟨m, [Event.outputFetch u], ?_, hm1, rfl, rfl⟩
              simp [generateVideoFromRunwayML, hp, hs, hout, fetchVideoAsBuffer, hv, hm]
      · exact ⟨m, [], by simp [generateVideoFromRunwayML, hp, hs, hm], hm1, rfl, rfl⟩

/-- C10: in every run of the video stage whose loop body executes at least
once (as the source's do-while always does), every status query in the
trace is immediately preceded by a full 10-second sleep, and at least one
sleep and one status query occur — even when the job is already terminal at
submission time, because the do-while loop tests the status only after
sleeping and polling once. -/
theorem c10_sleep_guards_every_query (env : Env) (fuel : Nat)
    (sports photo tempVideoName : String) (st : Store) (hfuel : 1 ≤ fuel) :
    queriesSleepGuarded
      (generateVideoFromRunwayML env fuel sports photo tempVideoName st).trace = true ∧
    1 ≤ countEvents isSleepEv
      (generateVideoFromRunwayML env fuel sports photo tempVideoName st).trace ∧
    1 ≤ countEvents isStatusQueryEv
      (generateVideoFromRunwayML env fuel sports photo tempVideoName st).trace := by
  obtain ⟨m, tail, htr, hm, hqs, _⟩ :=
    runway_trace_shape env fuel sports photo tempVideoName st
  have hm1 := hm hfuel
  refine ⟨?_, ?_, ?_⟩
  · rw [htr]
    show queriesSleepGuarded (pollTrace env.runwayTaskId m ++ tail) = true
    rw [queriesSleepGuarded_pollTrace_append]
    exact hqs
  · rw [htr]
    simp [countEvents_cons, countEvents_append, isSleepEv, countEvents_pollTrace_sleep]
    omega
  · rw [htr]
    simp [countEvents_cons, countEvents_append, isStatusQueryEv,
      countEvents_pollTrace_query]
    omega

/-- A video backend whose job is already terminal at submission time. -/
def envInstant : Env :=
  { envOk with runwayRetrieve := fun _ =>
      { status := TaskStatus.SUCCEEDED, output := some ["https://cdn/example.mp4"] } }

/-- Witness for C10: even against a backend whose job is terminal at
submission time, the stage sleeps once before its single status query. -/
theorem c10_sleep_guards_every_query_witness :
    queriesSleepGuarded
      (generateVideoFromRunwayML envInstant 1 "cricket" "img" "video-1000.mp4"
        emptyStore).trace = true ∧
    1 ≤ countEvents isSleepEv
      (generateVideoFromRunwayML envInstant 1 "cricket" "img" "video-1000.mp4"
        emptyStore).trace ∧
    1 ≤ countEvents isStatusQueryEv
      (generateVideoFromRunwayML envInstant 1 "cricket" "img" "video-1000.mp4"
        emptyStore).trace :=
  c10_sleep_guards_every_query envInstant 1 "cricket" "img" "video-1000.mp4" emptyStore
    (by decide)

/-- An environment whose video-output fetch answers HTTP 204 (a success
status in the 2xx range that is not 200). -/
def env204 : Env := { envOk with videoHttpStatus := 204 }

/-- The fetch-failure message never coincides with the missing-output
message, whatever status code is interpolated. -/
theorem fetchMsg_ne_outputMsg (x : String) :
    ("Failed to fetch video. Status code: " ++ x) ≠
      "Task output is undefined or empty." := by
  intro h
  have h2 : ("Failed to fetch video. Status code: " ++ x).data.head? = some 'F' := by
    rw [data_append]; rfl
  rw [h] at h2
  exact absurd h2 (by decide)

/-- Counterexample for C9: HTTP status 204 is a 2xx success status (the
route's own `response.ok` notion, `fetchOk`, accepts it), yet the video
fetch rejects it, because the source tests `statusCode !== 200` rather than
2xx membership.  So the fetch does not fail "exactly when the status is not
a 2xx success status". -/
theorem c9_counterexample :
    fetchOk env204.videoHttpStatus = true ∧
    (fetchVideoAsBuffer env204 "https://cdn/example.mp4").2 =
      Except.error "Failed to fetch video. Status code: 204" :=
  ⟨rfl, rfl⟩

/-- C9 amended (the original claim's "not a 2xx success status" must read
"not exactly 200"): the output fetch fails with the fetch error exactly when
the HTTP status differs from 200, and resolves with the concatenated chunks
exactly when it is 200; and when the polled job ends `SUCCEEDED`, the video
generator fails with the missing-output error exactly when the job result
carries no output reference. -/
theorem c9_amended_fetch_and_output_errors (env : Env) (videoUrl : String)
    (N fuel : Nat) (sports photo tempVideoName : String) (st : Store)
    (hfuel : N + 1 ≤ fuel)
    (hrun : ∀ j, j < N → (env.runwayRetrieve j).status = TaskStatus.RUNNING)
    (hsucc : (env.runwayRetrieve N).status = TaskStatus.SUCCEEDED) :
    ((fetchVideoAsBuffer env videoUrl).2 =
        Except.error ("Failed to fetch video. Status code: " ++ toString env.videoHttpStatus)
      ↔ env.videoHttpStatus ≠ 200) ∧
    ((fetchVideoAsBuffer env videoUrl).2 = Except.ok env.videoHttpChunks.flatten
      ↔ env.videoHttpStatus = 200) ∧
    ((generateVideoFromRunwayML env fuel sports photo tempVideoName st).result =
        some (Except.error "Task output is undefined or empty.")
      ↔ firstOutputRef (env.runwayRetrieve N) = none) := by
  have hpoll : pollLoopFuel env fuel 0 =
      (pollTrace env.runwayTaskId (N + 1), some (env.runwayRetrieve N)) := by
    have h := pollLoopFuel_terminal env N fuel 0 hfuel
      (fun j hj => by rw [Nat.zero_add, hrun j hj]; rfl)
      (by rw [Nat.zero_add, hsucc]; rfl)
    rwa [Nat.zero_add] at h
  refine ⟨?_, ?_, ?_⟩
  · constructor
    · intro h hv
      rw [fetchVideoAsBuffer] at h
      simp [hv] at h
    · intro hv
      simp [fetchVideoAsBuffer, hv]
  · constructor
    · intro h
      by_contra hv
      rw [fetchVideoAsBuffer] at h
      simp [hv] at h
    · intro hv
      simp [fetchVideoAsBuffer, hv]
  · cases hout : firstOutputRef (env.runwayRetrieve N) with
    | none =>
        simp [generateVideoFromRunwayML, hpoll, hsucc, hout]
    | some u =>
        simp only [generateVideoFromRunwayML, hpoll, hsucc, hout]
        by_cases hv : env.videoHttpStatus = 200 <;>
          simp [fetchVideoAsBuffer, hv, fetchMsg_ne_outputMsg]

/-- Witness for C9's amended theorem, at the already-succeeded backend of
`envInstant` (status 200, output present). -/
theorem c9_amended_fetch_and_output_errors_witness :
    ((fetchVideoAsBuffer envInstant "https://cdn/example.mp4").2 =
        Except.error ("Failed to fetch video. Status code: " ++
          toString envInstant.videoHttpStatus)
      ↔ envInstant.videoHttpStatus ≠ 200) ∧
    ((fetchVideoAsBuffer envInstant "https://cdn/example.mp4").2 =
        Except.ok envInstant.videoHttpChunks.flatten
      ↔ envInstant.videoHttpStatus = 200) ∧
    ((generateVideoFromRunwayML envInstant 1 "cricket" "img" "video-1000.mp4"
        emptyStore).result =
        some (Except.error "Task output is undefined or empty.")
      ↔ firstOutputRef (envInstant.runwayRetrieve 0) = none) :=
  c9_amended_fetch_and_output_errors envInstant "https://cdn/example.mp4" 0 1
    "cricket" "img" "video-1000.mp4" emptyStore (by decide)
    (fun j hj => absurd hj (Nat.not_lt_zero j)) (by decide)

/-- Decimal digit list of a natural number, most significant digit first
(reference specification of `Nat.toDigitsCore` at base 10). -/
def natDigits (n : Nat) : List Char :=
  if h : n / 10 = 0 then [Nat.digitChar (n % 10)]
  else natDigits (n / 10) ++ [Nat.digitChar (n % 10)]
decreasing_by
  have hn : n ≠ 0 := by
    intro h0
    rw [h0] at h
    exact h rfl
  exact Nat.div_lt_self (Nat.pos_of_ne_zero hn) (by norm_num)

/-- Numeric value of a decimal digit character. -/
def digitVal (c : Char) : Nat :=
  if c = '0' then 0 else if c = '1' then 1 else if c = '2' then 2 else
  if c = '3' then 3 else if c = '4' then 4 else if c = '5' then 5 else
  if c = '6' then 6 else if c = '7' then 7 else if c = '8' then 8 else
  if c = '9' then 9 else 10

/-- Value of a digit list, most significant digit first. -/
def digitsVal (l : List Char) : Nat :=
  l.foldl (fun a c => 10 * a + digitVal c) 0

theorem digitVal_digitChar : ∀ d, d < 10 → digitVal (Nat.digitChar d) = d := by decide

theorem digitsVal_append_singleton (l : List Char) (c : Char) :
    digitsVal (l ++ [c]) = 10 * digitsVal l + digitVal c := by
  simp [digitsVal, List.foldl_append]

theorem digitsVal_natDigits : ∀ n, digitsVal (natDigits n) = n := by
  intro n
  induction n using Nat.strong_induction_on with
  | _ n ih =>
      rw [natDigits]
      by_cases h : n / 10 = 0
      · have hlt : n < 10 := by omega
        have hmod : n % 10 = n := Nat.mod_eq_of_lt hlt
        rw [dif_pos h, hmod]
        simp [digitsVal, digitVal_digitChar n hlt]
      · have hn : n ≠ 0 := by
          intro h0; rw [h0] at h; exact h rfl
        have hdec : n / 10 < n := Nat.div_lt_self (Nat.pos_of_ne_zero hn) (by norm_num)
        rw [dif_neg h, digitsVal_append_singleton, ih (n / 10) hdec,
          digitVal_digitChar (n % 10) (Nat.mod_lt n (by norm_num))]
        exact Nat.div_add_mod n 10

theorem natDigits_inj {a b : Nat} (h : natDigits a = natDigits b) : a = b := by
  have h2 := congrArg digitsVal h
  rwa [digitsVal_natDigits, digitsVal_natDigits] at h2

theorem toDigitsCore_eq_natDigits :
    ∀ (fuel n : Nat) (ds : List Char), n < fuel →
      Nat.toDigitsCore 10 fuel n ds = natDigits n ++ ds := by
  intro fuel
  induction fuel with
  | zero => intro n ds h; exact absurd h (Nat.not_lt_zero n)
  | succ fuel ih =>
      intro n ds h
      rw [Nat.toDigitsCore]
      by_cases h10 : n / 10 = 0
      · rw [if_pos h10]
        conv_rhs => rw [natDigits, dif_pos h10]
        rfl
      · have hn : n ≠ 0 := by
          intro h0; rw [h0] at h10; exact h10 rfl
        have hdec : n / 10 < n := Nat.div_lt_self (Nat.pos_of_ne_zero hn) (by norm_num)
        have hlt : n / 10 < fuel := by omega
        rw [if_neg h10, ih (n / 10) (Nat.digitChar (n % 10) :: ds) hlt]
        conv_rhs => rw [natDigits, dif_neg h10]
        simp

theorem natRepr_eq_natDigits (n : Nat) : Nat.repr n = (natDigits n).asString := by
  rw [Nat.repr, Nat.toDigits,
    toDigitsCore_eq_natDigits (n + 1) n [] (Nat.lt_succ_self n), List.append_nil]

theorem natRepr_inj {a b : Nat} (h : Nat.repr a = Nat.repr b) : a = b := by
  rw [natRepr_eq_natDigits, natRepr_eq_natDigits] at h
  exact natDigits_inj (List.asString_inj.mp h)

/-- If wrapping two strings between the same non-empty affixes yields equal
strings, the wrapped strings are equal. -/
theorem append_wrap_inj (pre suf x y : String)
    (h : pre ++ x ++ suf = pre ++ y ++ suf) : x = y := by
  have hd := congrArg String.data h
  rw [data_append, data_append, data_append, data_append] at hd
  have h1 := List.append_cancel_right hd
  have h2 := List.append_cancel_left h1
  exact String.toList_inj.mp h2

/-- First of two simultaneous requests: same arrival millisecond as `envB`,
different script. -/
def envA : Env := { envInstant with geminiText := some "AAA", scriptFetchBody := "AAA" }

/-- Second of two simultaneous requests: same arrival millisecond as `envA`,
different script. -/
def envB : Env := { envInstant with geminiText := some "BBB", scriptFetchBody := "BBB" }

/-- Counterexample for C7: two distinct requests arriving in the same
millisecond (`Date.now() = 1000` for both) receive the identical request id,
hence identical artifact names; running the second request after the first
overwrites the first request's stored script object. -/
theorem c7_counterexample :
    ({ sports := "cricket", photo := "img1" } : RequestBody) ≠
      { sports := "football", photo := "img2" } ∧
    requestRandomId envA = requestRandomId envB ∧
    ("script-" ++ requestRandomId envA ++ ".txt") =
      ("script-" ++ requestRandomId envB ++ ".txt") ∧
    (POST envA 1 { sports := "cricket", photo := "img1" } emptyStore).store
        "temp/script-1000.txt" =
      some { contentType := "text/plain", content := strBytes "AAA" } ∧
    (POST envB 1 { sports := "football", photo := "img2" }
        (POST envA 1 { sports := "cricket", photo := "img1" } emptyStore).store).store
        "temp/script-1000.txt" =
      some { contentType := "text/plain", content := strBytes "BBB" } := by
  refine ⟨by decide, rfl, rfl, ?_, ?_⟩ <;> decide

theorem string_append_left_cancel (a x y : String) (h : a ++ x = a ++ y) : x = y := by
  have hd := congrArg String.data h
  rw [data_append, data_append] at hd
  exact String.toList_inj.mp (List.append_cancel_left hd)

/-- C7 amended: the request id is derived from the arrival timestamp alone
(`Date.now()` rendered in decimal), so two requests with different
timestamps receive different ids, and then all their artifact names and
store paths differ — a later request with a different timestamp never
overwrites an earlier one.  Two requests in the same millisecond, however,
share the id and their names collide (see the counterexample). -/
theorem c7_amended_distinct_timestamps (env1 env2 : Env) (h : env1.now ≠ env2.now) :
    requestRandomId env1 ≠ requestRandomId env2 ∧
    ("script-" ++ requestRandomId env1 ++ ".txt") ≠
      ("script-" ++ requestRandomId env2 ++ ".txt") ∧
    ("audio-" ++ requestRandomId env1 ++ ".mp3") ≠
      ("audio-" ++ requestRandomId env2 ++ ".mp3") ∧
    ("video-" ++ requestRandomId env1 ++ ".mp4") ≠
      ("video-" ++ requestRandomId env2 ++ ".mp4") ∧
    (categoryDir Category.temp ++ "/" ++ ("script-" ++ requestRandomId env1 ++ ".txt")) ≠
      (categoryDir Category.temp ++ "/" ++ ("script-" ++ requestRandomId env2 ++ ".txt")) := by
  have hid : requestRandomId env1 ≠ requestRandomId env2 := fun he => h (natRepr_inj he)
  have hs : ∀ pre suf : String,
      (pre ++ requestRandomId env1 ++ suf) ≠ (pre ++ requestRandomId env2 ++ suf) :=
    fun pre suf he => hid (append_wrap_inj pre suf _ _ he)
  refine ⟨hid, hs "script-" ".txt", hs "audio-" ".mp3", hs "video-" ".mp4", ?_⟩
  intro he
  exact hs "script-" ".txt" (string_append_left_cancel _ _ _ he)

/-- A request arriving one millisecond after `envOk`'s. -/
def envLater : Env := { envOk with now := 1001 }

/-- Witness for C7's amended theorem: timestamps 1000 and 1001 give distinct
ids, names and paths. -/
theorem c7_amended_distinct_timestamps_witness :
    requestRandomId envOk ≠ requestRandomId envLater ∧
    ("script-" ++ requestRandomId envOk ++ ".txt") ≠
      ("script-" ++ requestRandomId envLater ++ ".txt") ∧
    ("audio-" ++ requestRandomId envOk ++ ".mp3") ≠
      ("audio-" ++ requestRandomId envLater ++ ".mp3") ∧
    ("video-" ++ requestRandomId envOk ++ ".mp4") ≠
      ("video-" ++ requestRandomId envLater ++ ".mp4") ∧
    (categoryDir Category.temp ++ "/" ++ ("script-" ++ requestRandomId envOk ++ ".txt")) ≠
      (categoryDir Category.temp ++ "/" ++
        ("script-" ++ requestRandomId envLater ++ ".txt")) :=
  c7_amended_distinct_timestamps envOk envLater (by decide)

end Reels
